import Mathlib

/-!
# Verification of the Live-Linear-Regression-Training backend core

Shallow embedding of `src/database.py` (class `Database`) and
`src/controller/auth_controller.py` (class `AuthController`), together with
proofs about the behaviour documented in the specification.

Modelling conventions:
* The SQLite tables are lists of rows plus the `AUTOINCREMENT` counters
  (`nextUserId`, `nextModelId`); `CURRENT_TIMESTAMP` is a monotone tick.
* `hashlib.sha256(password.encode()).hexdigest()` is implemented in full
  (UTF-8 encoding, padding, compression, lowercase hex digest), with 32-bit
  words represented as `Nat` reduced modulo `2 ^ 32`.
* `str(uuid.uuid4())` is an external randomness source; it is modelled as a
  fresh-token supply: session identifiers are drawn from a counter that the
  controller state carries, together with a ghost list of the identifiers
  issued so far.
* SQLite `REAL` values are modelled as `Rat`; Python's `f"{x:.4f}"` becomes
  round-half-to-even at four decimal digits (no binary double is an exact
  four-decimal tie, so the tie-breaking rule is unobservable for doubles).
* Python exceptions that the routes convert to JSON error responses are an
  `ApiResult.httpError` constructor; the unreachable `TypeError` paths
  (indexing a `None` user) are the `ApiResult.crash` constructor.
-/

/-! ## SHA-256 (`hashlib.sha256(...).hexdigest()`) -/

/-- Reduce to a 32-bit word, as Python's C implementation does implicitly. -/
def w32 (n : Nat) : Nat := n % 4294967296

/-- Right rotation of a 32-bit word (argument assumed `< 2 ^ 32`). -/
def rotr (k x : Nat) : Nat := x / 2 ^ k + x % 2 ^ k * 2 ^ (32 - k)

/-- Bitwise complement inside 32 bits. -/
def not32 (x : Nat) : Nat := 4294967295 - x

def ch32 (e f g : Nat) : Nat := (e &&& f) ^^^ (not32 e &&& g)

def maj32 (a b c : Nat) : Nat := (a &&& b) ^^^ (a &&& c) ^^^ (b &&& c)

def bigSigma0 (x : Nat) : Nat := rotr 2 x ^^^ rotr 13 x ^^^ rotr 22 x

def bigSigma1 (x : Nat) : Nat := rotr 6 x ^^^ rotr 11 x ^^^ rotr 25 x

def smallSigma0 (x : Nat) : Nat := rotr 7 x ^^^ rotr 18 x ^^^ x / 2 ^ 3

def smallSigma1 (x : Nat) : Nat := rotr 17 x ^^^ rotr 19 x ^^^ x / 2 ^ 10

/-- The 64 SHA-256 round constants. -/
def K256 : List Nat :=
  [1116352408, 1899447441, 3049323471, 3921009573, 961987163,
   1508970993, 2453635748, 2870763221, 3624381080, 310598401,
   607225278, 1426881987, 1925078388, 2162078206, 2614888103,
   3248222580, 3835390401, 4022224774, 264347078, 604807628,
   770255983, 1249150122, 1555081692, 1996064986, 2554220882,
   2821834349, 2952996808, 3210313671, 3336571891, 3584528711,
   113926993, 338241895, 666307205, 773529912, 1294757372,
   1396182291, 1695183700, 1986661051, 2177026350, 2456956037,
   2730485921, 2820302411, 3259730800, 3345764771, 3516065817,
   3600352804, 4094571909, 275423344, 430227734, 506948616,
   659060556, 883997877, 958139571, 1322822218, 1537002063,
   1747873779, 1955562222, 2024104815, 2227730452, 2361852424,
   2428436474, 2756734187, 3204031479, 3329325298]

/-- SHA-256 working state: eight 32-bit words. -/
structure H8 where
  a : Nat
  b : Nat
  c : Nat
  d : Nat
  e : Nat
  f : Nat
  g : Nat
  h : Nat
deriving DecidableEq, Repr

/-- SHA-256 initial hash value. -/
def sha256Init : H8 :=
  ⟨1779033703, 3144134277, 1013904242, 2773480762,
   1359893119, 2600822924, 528734635, 1541459225⟩

/-- One compression round; `kw` is the pair (round constant, schedule word). -/
def sha256Round (st : H8) (kw : Nat × Nat) : H8 :=
  let t1 := w32 (st.h + bigSigma1 st.e + ch32 st.e st.f st.g + kw.1 + kw.2)
  let t2 := w32 (bigSigma0 st.a + maj32 st.a st.b st.c)
  ⟨w32 (t1 + t2), st.a, st.b, st.c, w32 (st.d + t1), st.e, st.f, st.g⟩

/-- One step of the message-schedule extension. -/
def scheduleStep (w : Array Nat) (_i : Nat) : Array Nat :=
  let n := w.size
  w.push (w32 (smallSigma1 (w.getD (n - 2) 0) + w.getD (n - 7) 0 +
    smallSigma0 (w.getD (n - 15) 0) + w.getD (n - 16) 0))

/-- Extend the 16 block words to the 64 schedule words. -/
def schedule (block16 : List Nat) : List Nat :=
  ((List.range 48).foldl scheduleStep block16.toArray).toList

/-- Compress one 512-bit block (given as 16 words) into the running state. -/
def compressBlock (st : H8) (block16 : List Nat) : H8 :=
  let r := ((K256.zip (schedule block16)).foldl sha256Round st)
  ⟨w32 (st.a + r.a), w32 (st.b + r.b), w32 (st.c + r.c), w32 (st.d + r.d),
   w32 (st.e + r.e), w32 (st.f + r.f), w32 (st.g + r.g), w32 (st.h + r.h)⟩

/-- Big-endian 8-byte encoding of the bit length. -/
def be64 (n : Nat) : List Nat :=
  [n / 2 ^ 56 % 256, n / 2 ^ 48 % 256, n / 2 ^ 40 % 256, n / 2 ^ 32 % 256,
   n / 2 ^ 24 % 256, n / 2 ^ 16 % 256, n / 2 ^ 8 % 256, n % 256]

/-- SHA-256 padding: `0x80`, zeros to 56 mod 64, then the 64-bit bit length. -/
def padBytes (msg : List Nat) : List Nat :=
  msg ++ 0x80 :: List.replicate ((119 - msg.length % 64) % 64) 0 ++
    be64 (8 * msg.length)

/-- Combine four bytes into one big-endian 32-bit word. -/
def toWords : List Nat → List Nat
  | b0 :: b1 :: b2 :: b3 :: rest => (((b0 * 256 + b1) * 256 + b2) * 256 + b3) :: toWords rest
  | _ => []

/-- Split into 64-byte chunks; the fuel argument keeps the recursion
structural (any fuel at least the chunk count works). -/
def chunks64 : Nat → List Nat → List (List Nat)
  | 0, _ => []
  | _, [] => []
  | fuel + 1, l => l.take 64 :: chunks64 fuel (l.drop 64)

/-- Full SHA-256 over a byte list. -/
def sha256Words (msg : List Nat) : H8 :=
  let padded := padBytes msg
  (chunks64 padded.length padded).foldl (fun st b => compressBlock st (toWords b)) sha256Init

/-- Lowercase hexadecimal characters of one 32-bit word. -/
def wordHexChars (w : Nat) : List Char :=
  [Nat.digitChar (w / 16 ^ 7 % 16), Nat.digitChar (w / 16 ^ 6 % 16),
   Nat.digitChar (w / 16 ^ 5 % 16), Nat.digitChar (w / 16 ^ 4 % 16),
   Nat.digitChar (w / 16 ^ 3 % 16), Nat.digitChar (w / 16 ^ 2 % 16),
   Nat.digitChar (w / 16 % 16), Nat.digitChar (w % 16)]

/-- The 64 hex characters of a digest. -/
def digestChars (st : H8) : List Char :=
  wordHexChars st.a ++ wordHexChars st.b ++ wordHexChars st.c ++ wordHexChars st.d ++
  wordHexChars st.e ++ wordHexChars st.f ++ wordHexChars st.g ++ wordHexChars st.h

/-- UTF-8 encoding of one code point (`str.encode()` in Python). -/
def utf8EncodeChar (n : Nat) : List Nat :=
  if n < 0x80 then [n]
  else if n < 0x800 then [0xc0 + n / 64, 0x80 + n % 64]
  else if n < 0x10000 then [0xe0 + n / 4096, 0x80 + n / 64 % 64, 0x80 + n % 64]
  else [0xf0 + n / 262144, 0x80 + n / 4096 % 64, 0x80 + n / 64 % 64, 0x80 + n % 64]

/-- UTF-8 bytes of a string. -/
def strBytes (s : String) : List Nat :=
  s.data.foldr (fun c acc => utf8EncodeChar c.toNat ++ acc) []

/-- `hashlib.sha256(s.encode()).hexdigest()`. -/
def sha256hex (s : String) : String :=
  String.mk (digestChars (sha256Words (strBytes s)))

/-! ## Python `f"{x:.4f}"` formatting over `Rat` -/

/-- Round-half-to-even of the nonnegative rational `num / den` (`den > 0`):
the rounding printf applies to the exact decimal value. -/
def halfRound (num den : Nat) : Nat :=
  let f := num / den
  let r := num % den
  if 2 * r < den then f
  else if den < 2 * r then f + 1
  else if f % 2 = 0 then f else f + 1

/-- The four fractional digits, most significant first. -/
def frac4Chars (n : Nat) : List Char :=
  [Nat.digitChar (n / 1000 % 10), Nat.digitChar (n / 100 % 10),
   Nat.digitChar (n / 10 % 10), Nat.digitChar (n % 10)]

/-- Python's `f"{q:.4f}"`: sign, integer digits, dot, four fractional digits,
where the magnitude is `|q| * 10 ^ 4` rounded half-to-even. -/
def fmt4 (q : Rat) : String :=
  let m := halfRound (q.num.natAbs * 10000) q.den
  (if q.num < 0 then "-" else "") ++ toString (m / 10000) ++ "." ++
    String.mk (frac4Chars (m % 10000))

/-! ## The `Database` class (`src/database.py`)

Rows carry the columns of the two tables; `created_at` is the tick at
insertion time.  `AUTOINCREMENT` is the pair of `next…Id` counters (SQLite's
`AUTOINCREMENT` keyword guarantees ids are never reused). -/

structure UserRow where
  id : Nat
  username : String
  password_hash : String
  email : Option String
  created_at : Nat
deriving DecidableEq, Repr

structure ModelRow where
  id : Nat
  user_id : Nat
  model_name : String
  theta_0 : Rat
  theta_1 : Rat
  rmse : Rat
  mae : Rat
  r2_score : Rat
  sklearn_rmse : Option Rat
  sklearn_mae : Option Rat
  sklearn_r2 : Option Rat
  equation : String
  created_at : Nat
deriving DecidableEq, Repr

structure Database where
  users : List UserRow
  nextUserId : Nat
  models : List ModelRow
  nextModelId : Nat
  tick : Nat
deriving DecidableEq, Repr

/-- The `model_data` dictionary passed to `save_model`; the route always
supplies the five required metrics, the three `sklearn_*` ones may be `None`. -/
structure ModelData where
  theta_0 : Rat
  theta_1 : Rat
  rmse : Rat
  mae : Rat
  r2_score : Rat
  sklearn_rmse : Option Rat
  sklearn_mae : Option Rat
  sklearn_r2 : Option Rat
deriving DecidableEq, Repr

/-- Result shape of `get_user_by_id`: the selected columns only —
`password_hash` is never selected into the returned record. -/
structure UserInfo where
  id : Nat
  username : String
  email : Option String
  created_at : Nat
deriving DecidableEq, Repr

/-- Result shape of `get_user_models` / `get_model_by_id`. -/
structure ModelInfo where
  id : Nat
  model_name : String
  theta_0 : Rat
  theta_1 : Rat
  rmse : Rat
  mae : Rat
  r2_score : Rat
  sklearn_rmse : Option Rat
  sklearn_mae : Option Rat
  sklearn_r2 : Option Rat
  equation : String
  created_at : Nat
deriving DecidableEq, Repr

namespace Database

/-- `Database.hash_password`. -/
def hash_password (password : String) : String := sha256hex password

/-- `Database.verify_password`. -/
def verify_password (password : String) (h : String) : Bool :=
  hash_password password == h

/-- `username` collides with an existing record (UNIQUE constraint). -/
def usernameTaken (db : Database) (u : String) : Bool :=
  db.users.any (fun r => r.username == u)

/-- `email` collides with an existing record; SQLite UNIQUE ignores NULLs. -/
def emailTaken (db : Database) : Option String → Bool
  | none => false
  | some x => db.users.any (fun r => r.email == some x)

/-- `Database.create_user`: the INSERT raises `IntegrityError` (converted to
`false`, table unchanged) exactly when the username or a non-null email
collides; otherwise the row is stored with the hashed password. -/
def create_user (db : Database) (username password : String) (email : Option String) :
    Database × Bool :=
  if db.usernameTaken username || db.emailTaken email then (db, false)
  else
    ({ db with
        users := db.users ++
          [⟨db.nextUserId, username, hash_password password, email, db.tick⟩],
        nextUserId := db.nextUserId + 1,
        tick := db.tick + 1 }, true)

/-- `Database.authenticate_user`: `SELECT id, password_hash … WHERE username = ?`,
then compare the hash of the supplied password. -/
def authenticate_user (db : Database) (username password : String) : Option Nat :=
  match db.users.find? (fun r => r.username == username) with
  | some r => if verify_password password r.password_hash then some r.id else none
  | none => none

/-- `Database.get_user_by_id`: selects `id, username, email, created_at` only. -/
def get_user_by_id (db : Database) (user_id : Nat) : Option UserInfo :=
  (db.users.find? (fun r => r.id == user_id)).map
    (fun r => ⟨r.id, r.username, r.email, r.created_at⟩)

/-- The display equation computed by `save_model`. -/
def mkEquation (d : ModelData) : String :=
  "y = " ++ fmt4 d.theta_1 ++ "x + " ++ fmt4 d.theta_0

/-- A row conflicts with the UNIQUE(user_id, model_name) key. -/
def keyMatch (uid : Nat) (name : String) (r : ModelRow) : Bool :=
  r.user_id == uid && r.model_name == name

/-- `Database.save_model`: `INSERT OR REPLACE` deletes any row violating
UNIQUE(user_id, model_name) and inserts a fresh row; the `id` column is not
in the column list, so the replacement gets a new autoincrement id. -/
def save_model (db : Database) (user_id : Nat) (model_name : String) (d : ModelData) :
    Database × Bool :=
  ({ db with
      models := db.models.filter (fun r => !keyMatch user_id model_name r) ++
        [⟨db.nextModelId, user_id, model_name, d.theta_0, d.theta_1, d.rmse, d.mae,
          d.r2_score, d.sklearn_rmse, d.sklearn_mae, d.sklearn_r2, mkEquation d, db.tick⟩],
      nextModelId := db.nextModelId + 1,
      tick := db.tick + 1 }, true)

/-- Row-to-record projection used by the model queries. -/
def toModelInfo (r : ModelRow) : ModelInfo :=
  ⟨r.id, r.model_name, r.theta_0, r.theta_1, r.rmse, r.mae, r.r2_score,
   r.sklearn_rmse, r.sklearn_mae, r.sklearn_r2, r.equation, r.created_at⟩

/-- `ORDER BY created_at DESC` (ticks are distinct, so the order is total). -/
def newestFirst (a b : ModelRow) : Prop := b.created_at ≤ a.created_at

instance : DecidableRel newestFirst := fun a b => Nat.decLe b.created_at a.created_at

/-- `Database.get_user_models`: rows of the user, newest first. -/
def get_user_models (db : Database) (user_id : Nat) : List ModelInfo :=
  ((db.models.filter (fun r => r.user_id == user_id)).insertionSort newestFirst).map toModelInfo

/-- `Database.get_model_by_id`: `WHERE id = ? AND user_id = ?`. -/
def get_model_by_id (db : Database) (model_id user_id : Nat) : Option ModelInfo :=
  (db.models.find? (fun r => r.id == model_id && r.user_id == user_id)).map toModelInfo

/-- `Database.delete_model`: `DELETE … WHERE id = ? AND user_id = ?`; returns
whether `cursor.rowcount` was positive. -/
def delete_model (db : Database) (model_id user_id : Nat) : Database × Bool :=
  let remaining := db.models.filter (fun r => !(r.id == model_id && r.user_id == user_id))
  ({ db with models := remaining }, decide (remaining.length < db.models.length))

end Database

/-! ## The `AuthController` class (`src/controller/auth_controller.py`)

`self.active_sessions` is a Python dict; it is modelled as an association
list with dict semantics (assignment shadows, `del` removes the key).
`str(uuid.uuid4())` is modelled as a fresh-token supply: `uuidCounter` is the
next token and `issuedIds` is the ghost history of tokens handed out. -/

/-- The value stored in `active_sessions[session_id]`. -/
structure SessionData where
  user_id : Nat
  username : String
  created_at : String
deriving DecidableEq, Repr

structure AuthController where
  active_sessions : List (Nat × SessionData)
  uuidCounter : Nat
  issuedIds : List Nat
deriving DecidableEq, Repr

/-- Result of a controller call as the route sees it: the returned payload, a
raised `HTTPException`, or an uncaught Python error (`crash`). -/
inductive ApiResult (α : Type) where
  | ok : α → ApiResult α
  | httpError : Nat → String → ApiResult α
  | crash : ApiResult α
deriving DecidableEq, Repr

/-- The public user object embedded in signup/signin responses. -/
structure PublicUser where
  id : Nat
  username : String
  email : Option String
deriving DecidableEq, Repr

/-- Successful signup payload. -/
structure SignupOk where
  message : String
  user : PublicUser
deriving DecidableEq, Repr

/-- Successful signin payload. -/
structure SigninOk where
  message : String
  session_id : Nat
  user : PublicUser
deriving DecidableEq, Repr

/-- `signout`'s returned dict. -/
structure Msg where
  success : Bool
  message : String
deriving DecidableEq, Repr

namespace AuthController

/-- `AuthController.create_session`: a fresh identifier is generated, the
session record stored (dict assignment), and the identifier returned. -/
def create_session (ac : AuthController) (user_id : Nat) (username : String) :
    Nat × AuthController :=
  (ac.uuidCounter,
   { active_sessions :=
       (ac.uuidCounter, ⟨user_id, username, "2024-01-01"⟩) ::
         ac.active_sessions.filter (fun q => !(q.1 == ac.uuidCounter)),
     uuidCounter := ac.uuidCounter + 1,
     issuedIds := ac.issuedIds ++ [ac.uuidCounter] })

/-- `AuthController.get_session`: `self.active_sessions.get(session_id)`. -/
def get_session (ac : AuthController) (session_id : Nat) : Option SessionData :=
  (ac.active_sessions.find? (fun q => q.1 == session_id)).map (fun q => q.2)

/-- `AuthController.delete_session`: `del` if present (idempotent overall). -/
def delete_session (ac : AuthController) (session_id : Nat) : AuthController :=
  { ac with active_sessions := ac.active_sessions.filter (fun q => !(q.1 == session_id)) }

/-- `AuthController.is_authenticated`: `session_id in self.active_sessions`. -/
def is_authenticated (ac : AuthController) (session_id : Nat) : Bool :=
  ac.active_sessions.any (fun q => q.1 == session_id)

/-- `AuthController.signup` (does not touch the session store). -/
def signup (_ac : AuthController) (db : Database) (username password : String)
    (email : Option String) : ApiResult SignupOk × Database :=
  if username.length < 3 then
    (.httpError 400 "Username must be at least 3 characters", db)
  else if password.length < 6 then
    (.httpError 400 "Password must be at least 6 characters", db)
  else
    let res := db.create_user username password email
    if res.2 = false then (.httpError 400 "Username already exists", db)
    else
      match res.1.authenticate_user username password with
      | none => (.crash, res.1)
      | some uid =>
        match res.1.get_user_by_id uid with
        | none => (.crash, res.1)
        | some info =>
          (.ok ⟨"User created successfully", ⟨info.id, info.username, info.email⟩⟩, res.1)

/-- `AuthController.signin`.  The database is read-only here; the controller
state gains the new session on success. -/
def signin (ac : AuthController) (db : Database) (username password : String) :
    ApiResult SigninOk × AuthController :=
  match db.authenticate_user username password with
  | none => (.httpError 401 "Invalid username or password", ac)
  | some uid =>
    match db.get_user_by_id uid with
    | none => (.crash, ac)
    | some info =>
      let sc := ac.create_session uid info.username
      (.ok ⟨"Sign in successful", sc.1, ⟨info.id, info.username, info.email⟩⟩, sc.2)

/-- `AuthController.signout`. -/
def signout (ac : AuthController) (session_id : Nat) : Msg × AuthController :=
  if ac.is_authenticated session_id then
    (⟨true, "Sign out successful"⟩, ac.delete_session session_id)
  else
    (⟨false, "Session not found"⟩, ac)

/-- `AuthController.get_current_user`. -/
def get_current_user (ac : AuthController) (db : Database) (session_id : Nat) :
    Option UserInfo :=
  match ac.get_session session_id with
  | some s => db.get_user_by_id s.user_id
  | none => none

end AuthController

/-! ## System operations (for the temporal claim)

One inductive step relation over the combined state, covering every
state-changing entry point of the two classes, plus a pure passage-of-time
step (`advanceClock`) standing for wall-clock time elapsing — e.g. the 7-day
cookie max-age running out, which no code path observes. -/

structure Sys where
  ac : AuthController
  db : Database
deriving DecidableEq, Repr

inductive Op where
  | signupOp (u p : String) (e : Option String)
  | signinOp (u p : String)
  | signoutOp (k : Nat)
  | createSessionOp (uid : Nat) (un : String)
  | deleteSessionOp (k : Nat)
  | createUserOp (u p : String) (e : Option String)
  | saveModelOp (uid : Nat) (name : String) (d : ModelData)
  | deleteModelOp (mid uid : Nat)
  | advanceClock (n : Nat)
deriving DecidableEq

/-- State transition of one operation (responses discarded). -/
def stepOp (s : Sys) : Op → Sys
  | .signupOp u p e => { s with db := (s.ac.signup s.db u p e).2 }
  | .signinOp u p => { s with ac := (s.ac.signin s.db u p).2 }
  | .signoutOp k => { s with ac := (s.ac.signout k).2 }
  | .createSessionOp uid un => { s with ac := (s.ac.create_session uid un).2 }
  | .deleteSessionOp k => { s with ac := s.ac.delete_session k }
  | .createUserOp u p e => { s with db := (s.db.create_user u p e).1 }
  | .saveModelOp uid name d => { s with db := (s.db.save_model uid name d).1 }
  | .deleteModelOp mid uid => { s with db := (s.db.delete_model mid uid).1 }
  | .advanceClock n => { s with db := { s.db with tick := s.db.tick + n } }

/-- Run a sequence of operations. -/
def runOps (s : Sys) (ops : List Op) : Sys := ops.foldl stepOp s

/-- The operation explicitly removes session `k`: `signout(k)` or
`delete_session(k)`. -/
def removesSession (k : Nat) : Op → Prop
  | .signoutOp j => j = k
  | .deleteSessionOp j => j = k
  | _ => False

instance (k : Nat) (op : Op) : Decidable (removesSession k op) := by
  cases op <;> simp only [removesSession] <;> infer_instance

/-! ## Well-formedness

Invariants every state reachable through SQLite and the controller satisfies:
autoincrement ids are below the counters and pairwise distinct, usernames are
unique (the UNIQUE constraint), and every issued session token is below the
supply counter. -/

def Database.UsersWF (db : Database) : Prop :=
  (∀ r ∈ db.users, r.id < db.nextUserId) ∧
  (db.users.map (fun r => r.username)).Nodup ∧
  (db.users.map (fun r => r.id)).Nodup

def Database.ModelsWF (db : Database) : Prop :=
  (∀ r ∈ db.models, r.id < db.nextModelId) ∧
  (db.models.map (fun r => r.id)).Nodup

def AuthController.IssuedWF (ac : AuthController) : Prop :=
  ∀ k ∈ ac.issuedIds, k < ac.uuidCounter

instance (db : Database) : Decidable db.UsersWF := by
  unfold Database.UsersWF; infer_instance

instance (db : Database) : Decidable db.ModelsWF := by
  unfold Database.ModelsWF; infer_instance

instance (ac : AuthController) : Decidable ac.IssuedWF := by
  unfold AuthController.IssuedWF; infer_instance

/-! ## Helper lemmas -/

theorem find?_filter_not {α : Type} (l : List α) (p : α → Bool) :
    (l.filter (fun x => !p x)).find? p = none := by
  apply List.find?_eq_none.mpr
  intro x hx
  simp only [List.mem_filter, Bool.not_eq_true'] at hx
  simp [hx.2]

theorem any_filter_not {α : Type} (l : List α) (p : α → Bool) :
    (l.filter (fun x => !p x)).any p = false := by
  simp only [Bool.not_eq_true, List.any_eq_false]
  intro x hx
  simp only [List.mem_filter, Bool.not_eq_true'] at hx
  simp [hx.2]

theorem find?_eq_none_of_any_false {α : Type} {l : List α} {p : α → Bool}
    (h : l.any p = false) : l.find? p = none := by
  apply List.find?_eq_none.mpr
  intro x hx
  simp only [List.any_eq_false] at h
  simp [h x hx]

theorem any_filter_of_any {α : Type} {l : List α} {p q : α → Bool}
    (h : l.any p = true) (hq : ∀ x ∈ l, p x = true → q x = true) :
    (l.filter q).any p = true := by
  rcases List.any_eq_true.mp h with ⟨x, hx, hpx⟩
  exact List.any_eq_true.mpr ⟨x, List.mem_filter.mpr ⟨hx, hq x hx hpx⟩, hpx⟩

/-- In a list whose `f`-keys are pairwise distinct, searching for the key of a
member finds exactly that member. -/
theorem find?_key_of_nodup {α β : Type} [DecidableEq β] (f : α → β) :
    ∀ (l : List α) (a : α), (l.map f).Nodup → a ∈ l →
      l.find? (fun x => f x == f a) = some a := by
  intro l
  induction l with
  | nil => intro a _ ha; cases ha
  | cons h t ih =>
    intro a hnd ha
    simp only [List.map_cons, List.nodup_cons] at hnd
    rcases List.mem_cons.mp ha with rfl | hat
    · simp [List.find?]
    · have hne : (f h == f a) = false := by
        apply beq_eq_false_iff_ne.mpr
        intro he
        exact hnd.1 (he ▸ List.mem_map_of_mem f hat)
      simp only [List.find?, hne]
      exact ih a hnd.2 hat

/-! ## Concrete fixtures used by witnesses -/

/-- Metrics of the specification's worked scenario. -/
def sampleData : ModelData := ⟨1.5, 2.3, 0.1, 0.1, 0.9, none, none, none⟩

/-- A second metric set, used where two different saves are needed. -/
def sampleData2 : ModelData := ⟨0.5, 4.0, 0.2, 0.3, 0.8, some 0.12, none, none⟩

/-- The model row stored in the fixture database. -/
def sampleRow : ModelRow :=
  ⟨10, 1, "m1", 1.5, 2.3, 0.1, 0.1, 0.9, none, none, none,
    "y = 2.3000x + 1.5000", 1⟩

/-- One user owning one saved model. -/
def sampleDb : Database :=
  { users := [⟨1, "alice", "stored-hash", some "a@x.com", 0⟩],
    nextUserId := 2,
    models := [sampleRow],
    nextModelId := 11,
    tick := 2 }

/-- A controller with one active session (token 0) and the supply at 1. -/
def sampleAc : AuthController :=
  { active_sessions := [(0, ⟨1, "alice", "2024-01-01"⟩)],
    uuidCounter := 1,
    issuedIds := [0] }

/-! ## C1 — non-owner access is indistinguishable from absence -/

/-- C1: when no row pairs the id `mid` with the caller `uidB` — in particular
when the model with id `mid` is owned by a different user, or when no model
has id `mid` at all — `get_model_by_id` returns `none` and `delete_model`
returns `False` and leaves the table unchanged, exactly the not-found
behaviour of a nonexistent id. -/
theorem claim_C1_nonowner_not_found (db : Database) (mid uidB : Nat)
    (h : ∀ r ∈ db.models, r.id = mid → r.user_id ≠ uidB) :
    db.get_model_by_id mid uidB = none ∧ db.delete_model mid uidB = (db, false) := by
  have hpred : ∀ r ∈ db.models, (r.id == mid && r.user_id == uidB) = false := by
    intro r hr
    by_cases hid : r.id = mid
    · have hne := h r hr hid
      simp [hid, hne]
    · simp [hid]
  constructor
  · unfold Database.get_model_by_id
    rw [List.find?_eq_none.mpr (fun r hr => by simp [hpred r hr])]
    rfl
  · unfold Database.delete_model
    have hfil : db.models.filter (fun r => !(r.id == mid && r.user_id == uidB)) = db.models :=
      List.filter_eq_self.mpr (fun r hr => by simp [hpred r hr])
    rw [hfil]
    simp

/-- C1 witness: in the fixture, user 2 querying or deleting user 1's model
(id 10) gets the not-found results. -/
theorem claim_C1_witness :
    (∀ r ∈ sampleDb.models, r.id = 10 → r.user_id ≠ 2) ∧
    sampleDb.get_model_by_id 10 2 = none ∧ sampleDb.delete_model 10 2 = (sampleDb, false) := by
  refine ⟨by decide, ?_, ?_⟩
  · exact (claim_C1_nonowner_not_found sampleDb 10 2 (by decide)).1
  · exact (claim_C1_nonowner_not_found sampleDb 10 2 (by decide)).2

/-! ## C5 — signout revokes; absent session is a not-found result -/

/-- C5: after `signout(s)` the session identifier no longer authenticates and
`get_current_user` resolves to `none`; and when `s` was not active, `signout`
returns the not-found dict (no exception) and leaves the session store
unchanged. -/
theorem claim_C5_signout (ac : AuthController) (db : Database) (s : Nat) :
    (ac.signout s).2.is_authenticated s = false ∧
    AuthController.get_current_user (ac.signout s).2 db s = none ∧
    (ac.is_authenticated s = false →
      ac.signout s = (⟨false, "Session not found"⟩, ac)) := by
  cases hb : ac.is_authenticated s with
  | true =>
    refine ⟨?_, ?_, ?_⟩
    · show (ac.signout s).2.active_sessions.any (fun q => q.1 == s) = false
      simp only [AuthController.signout, hb, if_true]
      exact any_filter_not _ _
    · show AuthController.get_current_user (ac.signout s).2 db s = none
      simp only [AuthController.signout, hb, if_true, AuthController.get_current_user,
        AuthController.get_session, AuthController.delete_session]
      rw [find?_filter_not]
      rfl
    · intro hfalse
      cases hfalse
  | false =>
    have hout : ac.signout s = (⟨false, "Session not found"⟩, ac) := by
      simp [AuthController.signout, hb]
    refine ⟨?_, ?_, fun _ => hout⟩
    · rw [hout]
      exact hb
    · rw [hout]
      show AuthController.get_current_user ac db s = none
      simp only [AuthController.get_current_user, AuthController.get_session]
      rw [find?_eq_none_of_any_false hb]
      rfl

/-- C5 witness: instantiation at the fixture controller, both for the active
token 0 and for the never-issued token 42. -/
theorem claim_C5_witness :
    (sampleAc.signout 0).2.is_authenticated 0 = false ∧
    AuthController.get_current_user (sampleAc.signout 0).2 sampleDb 0 = none ∧
    (sampleAc.is_authenticated 42 = false →
      sampleAc.signout 42 = (⟨false, "Session not found"⟩, sampleAc)) :=
  ⟨(claim_C5_signout sampleAc sampleDb 0).1, (claim_C5_signout sampleAc sampleDb 0).2.1,
   (claim_C5_signout sampleAc sampleDb 42).2.2⟩

/-! ## C8 — sessions are only ever removed by an explicit delete -/

/-- Dict assignment (shadowing insert) never removes a present key. -/
theorem any_insert_keep (l : List (Nat × SessionData)) (s k : Nat) (v : SessionData)
    (h : l.any (fun q => q.1 == s) = true) :
    (((k, v) :: l.filter (fun q => !(q.1 == k))).any (fun q => q.1 == s)) = true := by
  by_cases hsk : k = s
  · simp [List.any_cons, hsk]
  · simp only [List.any_cons, Bool.or_eq_true]
    refine Or.inr (any_filter_of_any h ?_)
    intro x hx hpx
    have : x.1 = s := by simpa using hpx
    simp [this, Ne.symm hsk]

/-- Deleting a different key keeps a present key. -/
theorem any_delete_keep (l : List (Nat × SessionData)) (s k : Nat)
    (h : l.any (fun q => q.1 == s) = true) (hne : k ≠ s) :
    ((l.filter (fun q => !(q.1 == k))).any (fun q => q.1 == s)) = true := by
  refine any_filter_of_any h ?_
  intro x hx hpx
  have : x.1 = s := by simpa using hpx
  simp [this, Ne.symm hne]

/-- One step that is not an explicit removal of `k` keeps `k` authenticated. -/
theorem stepOp_preserves_auth (s : Sys) (op : Op) (k : Nat)
    (hop : ¬ removesSession k op) (h : s.ac.is_authenticated k = true) :
    (stepOp s op).ac.is_authenticated k = true := by
  cases op with
  | signupOp u p e => exact h
  | signinOp u p =>
    show ((s.ac.signin s.db u p).2).is_authenticated k = true
    unfold AuthController.signin
    split
    · exact h
    · split
      · exact h
      · show (s.ac.create_session _ _).2.is_authenticated k = true
        unfold AuthController.create_session AuthController.is_authenticated
        exact any_insert_keep _ _ _ _ h
  | signoutOp j =>
    have hne : j ≠ k := hop
    show ((s.ac.signout j).2).is_authenticated k = true
    unfold AuthController.signout
    by_cases hj : s.ac.is_authenticated j = true
    · simp only [hj, if_true]
      exact any_delete_keep _ _ _ h hne
    · simp only [Bool.not_eq_true] at hj
      simp [hj, h]
  | createSessionOp uid un =>
    show (s.ac.create_session uid un).2.is_authenticated k = true
    unfold AuthController.create_session AuthController.is_authenticated
    exact any_insert_keep _ _ _ _ h
  | deleteSessionOp j =>
    have hne : j ≠ k := hop
    show (s.ac.delete_session j).is_authenticated k = true
    unfold AuthController.delete_session AuthController.is_authenticated
    exact any_delete_keep _ _ _ h hne
  | createUserOp u p e => exact h
  | saveModelOp uid name d => exact h
  | deleteModelOp mid uid => exact h
  | advanceClock n => exact h

/-- C8: a session made ACTIVE stays ACTIVE under any sequence of operations
that contains neither `signout(k)` nor `delete_session(k)` — including pure
passage of time (`advanceClock`), so the store never expires an entry even
after the client cookie's 7-day max-age would have elapsed. -/
theorem claim_C8_no_expiry (s0 : Sys) (k : Nat) (ops : List Op)
    (h : s0.ac.is_authenticated k = true)
    (hops : ∀ op ∈ ops, ¬ removesSession k op) :
    (runOps s0 ops).ac.is_authenticated k = true := by
  induction ops generalizing s0 with
  | nil => exact h
  | cons op rest ih =>
    have h1 : (stepOp s0 op).ac.is_authenticated k = true :=
      stepOp_preserves_auth s0 op k (hops op (List.mem_cons_self op rest)) h
    exact ih (stepOp s0 op) h1 (fun o ho => hops o (List.mem_cons_of_mem op ho))

/-- C8 witness: session 0 survives a run containing a 7-day clock advance,
other users' signin/signout, saves and deletes. -/
theorem claim_C8_witness :
    (Sys.mk sampleAc sampleDb).ac.is_authenticated 0 = true ∧
    (∀ op ∈ [Op.advanceClock 604800, Op.signinOp "alice" "secret1", Op.signoutOp 5,
      Op.saveModelOp 1 "m2" sampleData2, Op.deleteSessionOp 7, Op.deleteModelOp 10 1],
      ¬ removesSession 0 op) ∧
    (runOps ⟨sampleAc, sampleDb⟩ [Op.advanceClock 604800, Op.signinOp "alice" "secret1",
      Op.signoutOp 5, Op.saveModelOp 1 "m2" sampleData2, Op.deleteSessionOp 7,
      Op.deleteModelOp 10 1]).ac.is_authenticated 0 = true := by
  refine ⟨by decide, by decide, ?_⟩
  exact claim_C8_no_expiry ⟨sampleAc, sampleDb⟩ 0 _ (by decide) (by decide)

/-! ## C3 — duplicate username/email: boolean failure, table unchanged -/

/-- C3: when the username (or a supplied email) already exists,
`create_user` returns `False` — the `IntegrityError` is caught, no exception
escapes — with the user table unchanged; and `signup` with a duplicate
username fails with a 400 client error for every password and email. -/
theorem claim_C3_duplicate_rejected (ac : AuthController) (db : Database)
    (u p : String) (e : Option String) :
    ((∃ r ∈ db.users, r.username = u) → db.create_user u p e = (db, false)) ∧
    ((∃ x, e = some x ∧ ∃ r ∈ db.users, r.email = some x) →
      db.create_user u p e = (db, false)) ∧
    ((∃ r ∈ db.users, r.username = u) →
      ∃ detail, ac.signup db u p e = (.httpError 400 detail, db)) := by
  refine ⟨?_, ?_, ?_⟩
  · rintro ⟨r, hr, hru⟩
    have hu : db.usernameTaken u = true :=
      List.any_eq_true.mpr ⟨r, hr, by simp [hru]⟩
    simp [Database.create_user, hu]
  · rintro ⟨x, rfl, r, hr, hrx⟩
    have he : db.emailTaken (some x) = true :=
      List.any_eq_true.mpr ⟨r, hr, by simp [hrx]⟩
    simp [Database.create_user, he]
  · rintro ⟨r, hr, hru⟩
    have hu : db.usernameTaken u = true :=
      List.any_eq_true.mpr ⟨r, hr, by simp [hru]⟩
    unfold AuthController.signup
    by_cases h3 : u.length < 3
    · exact ⟨"Username must be at least 3 characters", by simp [h3]⟩
    · by_cases h6 : p.length < 6
      · exact ⟨"Password must be at least 6 characters", by simp [h3, h6]⟩
      · refine ⟨"Username already exists", ?_⟩
        have hcu : db.create_user u p e = (db, false) := by
          simp [Database.create_user, hu]
        simp [h3, h6, hcu]

/-- C3 witness: in the fixture, re-registering the taken username "alice"
(any password/email) and registering a fresh username with the taken email
both fail boolean-false with the table unchanged, and signup with the
duplicate username yields a 400. -/
theorem claim_C3_witness :
    sampleDb.create_user "alice" "newpass1" none = (sampleDb, false) ∧
    sampleDb.create_user "bob" "newpass1" (some "a@x.com") = (sampleDb, false) ∧
    ∃ detail, sampleAc.signup sampleDb "alice" "otherpass" (some "b@y.com") =
      (.httpError 400 detail, sampleDb) := by
  refine ⟨?_, ?_, ?_⟩
  · exact (claim_C3_duplicate_rejected sampleAc sampleDb "alice" "newpass1" none).1
      ⟨⟨1, "alice", "stored-hash", some "a@x.com", 0⟩, by decide, rfl⟩
  · exact (claim_C3_duplicate_rejected sampleAc sampleDb "bob" "newpass1"
      (some "a@x.com")).2.1
      ⟨"a@x.com", rfl, ⟨1, "alice", "stored-hash", some "a@x.com", 0⟩, by decide, rfl⟩
  · exact (claim_C3_duplicate_rejected sampleAc sampleDb "alice" "otherpass"
      (some "b@y.com")).2.2
      ⟨⟨1, "alice", "stored-hash", some "a@x.com", 0⟩, by decide, rfl⟩

/-! ## Digest shape lemmas -/

/-- A SHA-256 hex digest has exactly 64 characters. -/
theorem digestChars_length (st : H8) : (digestChars st).length = 64 := by
  simp [digestChars, wordHexChars]

/-- `hexdigest()` always returns a 64-character string. -/
theorem sha256hex_length (s : String) : (sha256hex s).length = 64 :=
  digestChars_length (sha256Words (strBytes s))

/-- The stored hash differs from any plaintext that is not itself 64
characters long (the digest length). -/
theorem hash_password_ne_of_length {p : String} (h : p.length ≠ 64) :
    Database.hash_password p ≠ p := by
  intro he
  apply h
  rw [← he]
  exact sha256hex_length p

/-! ## Signup building blocks

`find?_append_of_none` and the freshly initialised database are shared by the
noninterference proofs and witnesses below. -/

theorem find?_append_of_none {α : Type} {l1 : List α} (l2 : List α) {p : α → Bool}
    (h : l1.find? p = none) : (l1 ++ l2).find? p = l2.find? p := by
  induction l1 with
  | nil => rfl
  | cons a t ih =>
    have hpa : p a = false := by
      have := List.find?_eq_none.mp h a (List.mem_cons_self a t)
      simpa using this
    have ht : t.find? p = none := by
      have h2 := h
      simp only [List.find?, hpa] at h2
      exact h2
    simp only [List.cons_append, List.find?, hpa]
    exact ih ht

/-- An empty database right after `init_database` (autoincrement counters
start at 1). -/
def emptyDb : Database :=
  { users := [], nextUserId := 1, models := [], nextModelId := 1, tick := 0 }

/-! ## C6 — signin: fresh identifier on success, 401 and no session on failure

"Incorrect password" is formalised the way the credential store decides it:
a password whose hash does not match the stored `password_hash` (absent a
SHA-256 collision this is exactly a plaintext different from the signup
password).  Freshness of the identifier is relative to the uuid supply
model: every previously issued token is below the counter. -/

/-- C6: with unique usernames and ids and a well-formed token supply,
(1) signin with the stored credentials succeeds, returns the fresh token
`ac.uuidCounter` — distinct from every previously issued identifier — and
registers the session; (2) signin with an unknown username fails 401 and
leaves the controller unchanged (no session created); (3) signin with a
password whose hash does not match the stored one fails 401 and leaves the
controller unchanged. -/
theorem claim_C6_signin (ac : AuthController) (db : Database)
    (hnd_un : (db.users.map (fun r => r.username)).Nodup)
    (hnd_id : (db.users.map (fun r => r.id)).Nodup)
    (hiss : ac.IssuedWF) :
    (∀ (row : UserRow) (p : String), row ∈ db.users →
      row.password_hash = Database.hash_password p →
      ac.signin db row.username p =
        (.ok ⟨"Sign in successful", ac.uuidCounter, ⟨row.id, row.username, row.email⟩⟩,
          (ac.create_session row.id row.username).2) ∧
      ac.uuidCounter ∉ ac.issuedIds ∧
      (ac.create_session row.id row.username).2.active_sessions =
        (ac.uuidCounter, ⟨row.id, row.username, "2024-01-01"⟩) ::
          ac.active_sessions.filter (fun q => !(q.1 == ac.uuidCounter))) ∧
    (∀ (u' p' : String), (∀ r ∈ db.users, r.username ≠ u') →
      ac.signin db u' p' = (.httpError 401 "Invalid username or password", ac)) ∧
    (∀ (row : UserRow) (p' : String), row ∈ db.users →
      Database.hash_password p' ≠ row.password_hash →
      ac.signin db row.username p' =
        (.httpError 401 "Invalid username or password", ac)) := by
  refine ⟨?_, ?_, ?_⟩
  · intro row p hmem hhash
    have hfun : db.users.find? (fun r => r.username == row.username) = some row :=
      find?_key_of_nodup (fun r => r.username) db.users row hnd_un hmem
    have hfid : db.users.find? (fun r => r.id == row.id) = some row :=
      find?_key_of_nodup (fun r => r.id) db.users row hnd_id hmem
    have hauth : db.authenticate_user row.username p = some row.id := by
      unfold Database.authenticate_user
      rw [hfun]
      simp [Database.verify_password, hhash]
    have hget : db.get_user_by_id row.id =
        some ⟨row.id, row.username, row.email, row.created_at⟩ := by
      unfold Database.get_user_by_id
      rw [hfid]
      rfl
    refine ⟨?_, ?_, rfl⟩
    · unfold AuthController.signin
      rw [hauth]
      simp only [hget]
      rfl
    · intro hin
      exact absurd (hiss _ hin) (Nat.lt_irrefl ac.uuidCounter)
  · intro u' p' hu'
    have hfun : db.users.find? (fun r => r.username == u') = none :=
      List.find?_eq_none.mpr (fun r hr => by simp [hu' r hr])
    unfold AuthController.signin Database.authenticate_user
    rw [hfun]
  · intro row p' hmem hne
    have hfun : db.users.find? (fun r => r.username == row.username) = some row :=
      find?_key_of_nodup (fun r => r.username) db.users row hnd_un hmem
    have hauth : db.authenticate_user row.username p' = none := by
      unfold Database.authenticate_user
      rw [hfun]
      simp [Database.verify_password, hne]
    unfold AuthController.signin
    rw [hauth]

/-- One user whose stored hash is the digest of "secret1". -/
def signinDb : Database :=
  { users := [⟨1, "alice", Database.hash_password "secret1", some "a@x.com", 0⟩],
    nextUserId := 2, models := [], nextModelId := 1, tick := 1 }

set_option maxRecDepth 100000 in
/-- C6 witness: a correct signin for "alice" returns token 1 (fresh w.r.t.
the issued list [0]) and stores the session; an unknown username and a wrong
password each yield 401 with the controller untouched. -/
theorem claim_C6_witness :
    ((signinDb.users.map (fun r => r.username)).Nodup ∧
      (signinDb.users.map (fun r => r.id)).Nodup ∧ sampleAc.IssuedWF) ∧
    (sampleAc.signin signinDb "alice" "secret1" =
        (.ok ⟨"Sign in successful", 1, ⟨1, "alice", some "a@x.com"⟩⟩,
          (sampleAc.create_session 1 "alice").2) ∧
      (1 : Nat) ∉ sampleAc.issuedIds) ∧
    sampleAc.signin signinDb "mallory" "whatever" =
      (.httpError 401 "Invalid username or password", sampleAc) ∧
    sampleAc.signin signinDb "alice" "wrongpass" =
      (.httpError 401 "Invalid username or password", sampleAc) := by
  have hrow : (⟨1, "alice", Database.hash_password "secret1", some "a@x.com", 0⟩ : UserRow)
      ∈ signinDb.users := List.mem_cons_self _ _
  have main := claim_C6_signin sampleAc signinDb (by decide) (by decide) (by decide)
  refine ⟨⟨by decide, by decide, by decide⟩, ?_, ?_, ?_⟩
  · have h1 := main.1 ⟨1, "alice", Database.hash_password "secret1", some "a@x.com", 0⟩
      "secret1" hrow rfl
    exact ⟨h1.1, h1.2.1⟩
  · exact main.2.1 "mallory" "whatever" (by decide)
  · exact main.2.2 ⟨1, "alice", Database.hash_password "secret1", some "a@x.com", 0⟩
      "wrongpass" hrow (by decide)

/-! ## C4 — saving twice under one (user, name) overwrites -/

/-- Unfolding lemma: the models table after one `save_model`. -/
theorem save_model_models (db : Database) (uid : Nat) (name : String) (d : ModelData) :
    (db.save_model uid name d).1.models =
      db.models.filter (fun r => !Database.keyMatch uid name r) ++
        [⟨db.nextModelId, uid, name, d.theta_0, d.theta_1, d.rmse, d.mae, d.r2_score,
          d.sklearn_rmse, d.sklearn_mae, d.sklearn_r2, Database.mkEquation d, db.tick⟩] :=
  rfl

/-- C4: after two saves under the same `(uid, name)`, `get_user_models`
contains exactly one entry named `name`, and it carries the coefficients,
metrics and equation of the second call. -/
theorem claim_C4_save_overwrites (db : Database) (uid : Nat) (name : String)
    (d1 d2 : ModelData) :
    ∃ m : ModelInfo,
      (((db.save_model uid name d1).1.save_model uid name d2).1.get_user_models uid).filter
          (fun x => x.model_name == name) = [m] ∧
      m.theta_0 = d2.theta_0 ∧ m.theta_1 = d2.theta_1 ∧ m.rmse = d2.rmse ∧
      m.mae = d2.mae ∧ m.r2_score = d2.r2_score ∧
      m.equation = Database.mkEquation d2 := by
  have hF0 : ∀ r ∈ db.models.filter (fun r => !Database.keyMatch uid name r),
      (!Database.keyMatch uid name r) = true := fun r hr => (List.mem_filter.mp hr).2
  have h1 : ((db.save_model uid name d1).1.save_model uid name d2).1.models =
      db.models.filter (fun r => !Database.keyMatch uid name r) ++
        [⟨db.nextModelId + 1, uid, name, d2.theta_0, d2.theta_1, d2.rmse, d2.mae,
          d2.r2_score, d2.sklearn_rmse, d2.sklearn_mae, d2.sklearn_r2,
          Database.mkEquation d2, db.tick + 1⟩] := by
    rw [save_model_models, save_model_models, List.filter_append,
      List.filter_eq_self.mpr hF0]
    simp [Database.keyMatch]
    exact ⟨rfl, rfl⟩
  have h2 : (((db.save_model uid name d1).1.save_model uid name d2).1.models).filter
      (fun r => r.user_id == uid) =
      (db.models.filter (fun r => !Database.keyMatch uid name r)).filter
        (fun r => r.user_id == uid) ++
      [⟨db.nextModelId + 1, uid, name, d2.theta_0, d2.theta_1, d2.rmse, d2.mae,
        d2.r2_score, d2.sklearn_rmse, d2.sklearn_mae, d2.sklearn_r2,
        Database.mkEquation d2, db.tick + 1⟩] := by
    rw [h1, List.filter_append]
    simp
  refine ⟨Database.toModelInfo
    ⟨db.nextModelId + 1, uid, name, d2.theta_0, d2.theta_1, d2.rmse, d2.mae,
      d2.r2_score, d2.sklearn_rmse, d2.sklearn_mae, d2.sklearn_r2,
      Database.mkEquation d2, db.tick + 1⟩, ?_, rfl, rfl, rfl, rfl, rfl, rfl⟩
  have hperm :
      ((((db.save_model uid name d1).1.save_model uid name d2).1.get_user_models uid).filter
        (fun x => x.model_name == name)).Perm
      ((((((db.save_model uid name d1).1.save_model uid name d2).1.models).filter
          (fun r => r.user_id == uid)).map Database.toModelInfo).filter
        (fun x => x.model_name == name)) := by
    unfold Database.get_user_models
    exact ((List.perm_insertionSort Database.newestFirst _).map Database.toModelInfo).filter _
  apply List.perm_singleton.mp
  refine hperm.trans ?_
  rw [h2, List.map_append, List.filter_append]
  have hnil : (((db.models.filter (fun r => !Database.keyMatch uid name r)).filter
      (fun r => r.user_id == uid)).map Database.toModelInfo).filter
        (fun x => x.model_name == name) = [] := by
    rw [List.filter_eq_nil_iff]
    intro x hx
    rcases List.mem_map.mp hx with ⟨r, hr, rfl⟩
    have hkey := (List.mem_filter.mp (List.mem_filter.mp hr).1).2
    have huser := (List.mem_filter.mp hr).2
    simp only [Database.keyMatch, Bool.not_eq_true', Bool.and_eq_false_iff] at hkey
    rcases hkey with h | h
    · rw [huser] at h
      cases h
    · simpa [Database.toModelInfo] using h
  rw [hnil]
  simp [Database.toModelInfo]

/-! ## C9 — INSERT OR REPLACE stores the replacement under a new id -/

/-- Shared not-found characterisation: when no row pairs `mid` with `uidB`,
lookup yields `none` and delete yields `False` with the table unchanged. -/
theorem db_model_not_found (db : Database) (mid uidB : Nat)
    (h : ∀ r ∈ db.models, ¬(r.id = mid ∧ r.user_id = uidB)) :
    db.get_model_by_id mid uidB = none ∧ db.delete_model mid uidB = (db, false) := by
  have hpred : ∀ r ∈ db.models, (r.id == mid && r.user_id == uidB) = false := by
    intro r hr
    have := h r hr
    by_cases hid : r.id = mid
    · have : ¬ r.user_id = uidB := fun hu => this ⟨hid, hu⟩
      simp [hid, this]
    · simp [hid]
  constructor
  · unfold Database.get_model_by_id
    rw [List.find?_eq_none.mpr (fun r hr => by simp [hpred r hr])]
    rfl
  · unfold Database.delete_model
    have hfil : db.models.filter (fun r => !(r.id == mid && r.user_id == uidB)) = db.models :=
      List.filter_eq_self.mpr (fun r hr => by simp [hpred r hr])
    rw [hfil]
    simp

/-- C9: in a well-formed state, re-saving an existing `(uid, name)` model
stores the replacement under the fresh autoincrement id `db.nextModelId`,
different from the id `rec.id` previously returned by `get_user_models`; the
old id afterwards behaves as nonexistent for both `get_model_by_id` and
`delete_model`. -/
theorem claim_C9_resave_changes_id (db : Database) (uid : Nat) (name : String)
    (d2 : ModelData) (rec : ModelInfo)
    (hwf : db.ModelsWF)
    (hmem : rec ∈ db.get_user_models uid)
    (hname : rec.model_name = name) :
    (∃ newrow ∈ (db.save_model uid name d2).1.models,
      newrow.id = db.nextModelId ∧ newrow.id ≠ rec.id ∧
      newrow.user_id = uid ∧ newrow.model_name = name) ∧
    (db.save_model uid name d2).1.get_model_by_id rec.id uid = none ∧
    (db.save_model uid name d2).1.delete_model rec.id uid =
      ((db.save_model uid name d2).1, false) := by
  obtain ⟨row, hrowmem, hrowuid, hrowinfo⟩ :
      ∃ row, row ∈ db.models ∧ (row.user_id == uid) = true ∧
        Database.toModelInfo row = rec := by
    unfold Database.get_user_models at hmem
    rcases List.mem_map.mp hmem with ⟨row, hrow, hinfo⟩
    have hrow2 := (List.perm_insertionSort Database.newestFirst _).mem_iff.mp hrow
    exact ⟨row, (List.mem_filter.mp hrow2).1, (List.mem_filter.mp hrow2).2, hinfo⟩
  have hrecid : rec.id = row.id := by rw [← hrowinfo]; rfl
  have hrowname : row.model_name = name := by
    rw [← hname, ← hrowinfo]; rfl
  have huser : row.user_id = uid := by simpa using hrowuid
  have hlt : row.id < db.nextModelId := hwf.1 row hrowmem
  have hkeyrow : Database.keyMatch uid name row = true := by
    simp [Database.keyMatch, huser, hrowname]
  refine ⟨?_, ?_⟩
  · refine ⟨⟨db.nextModelId, uid, name, d2.theta_0, d2.theta_1, d2.rmse, d2.mae,
      d2.r2_score, d2.sklearn_rmse, d2.sklearn_mae, d2.sklearn_r2,
      Database.mkEquation d2, db.tick⟩, ?_, rfl, ?_, rfl, rfl⟩
    · rw [save_model_models]
      exact List.mem_append_right _ (List.mem_cons_self _ _)
    · show db.nextModelId ≠ rec.id
      rw [hrecid]
      omega
  · apply db_model_not_found
    intro r hr
    rw [save_model_models] at hr
    rintro ⟨hid, huid⟩
    rcases List.mem_append.mp hr with hF | hnew
    · have hrmem := (List.mem_filter.mp hF).1
      have hrkey := (List.mem_filter.mp hF).2
      have : r = row := by
        apply List.inj_on_of_nodup_map hwf.2 hrmem hrowmem
        rw [hid, hrecid]
      rw [this, hkeyrow] at hrkey
      cases hrkey
    · have : r = ⟨db.nextModelId, uid, name, d2.theta_0, d2.theta_1, d2.rmse, d2.mae,
        d2.r2_score, d2.sklearn_rmse, d2.sklearn_mae, d2.sklearn_r2,
        Database.mkEquation d2, db.tick⟩ := by simpa using hnew
      rw [this] at hid
      simp only at hid
      rw [hrecid] at hid
      omega

/-- The record `get_user_models` returns for the fixture's saved model. -/
def sampleModelInfo : ModelInfo := Database.toModelInfo sampleRow

/-- C9 witness: re-saving "m1" for user 1 in the fixture puts the new row
under id 11 and makes the old id 10 behave as nonexistent. -/
theorem claim_C9_witness :
    (sampleDb.ModelsWF ∧ sampleModelInfo ∈ sampleDb.get_user_models 1 ∧
      sampleModelInfo.model_name = "m1") ∧
    ((∃ newrow ∈ (sampleDb.save_model 1 "m1" sampleData2).1.models,
        newrow.id = sampleDb.nextModelId ∧ newrow.id ≠ sampleModelInfo.id ∧
        newrow.user_id = 1 ∧ newrow.model_name = "m1") ∧
      (sampleDb.save_model 1 "m1" sampleData2).1.get_model_by_id sampleModelInfo.id 1 =
        none ∧
      (sampleDb.save_model 1 "m1" sampleData2).1.delete_model sampleModelInfo.id 1 =
        ((sampleDb.save_model 1 "m1" sampleData2).1, false)) := by
  have hmem : sampleModelInfo ∈ sampleDb.get_user_models 1 := by
    rw [show sampleDb.get_user_models 1 = [sampleModelInfo] from rfl]
    exact List.mem_cons_self _ _
  exact ⟨⟨by decide, hmem, rfl⟩,
   claim_C9_resave_changes_id sampleDb 1 "m1" sampleData2 sampleModelInfo
     (by decide) hmem rfl⟩

/-! ## C7 — the stored equation string -/

/-- Digit characters produced by `Nat.digitChar` below 10 are ASCII digits. -/
theorem digitChar_isDigit {n : Nat} (h : n < 10) : (Nat.digitChar n).isDigit = true := by
  interval_cases n <;> decide

/-- C7: every save stores
`"y = {theta_1:.4f}x + {theta_0:.4f}"` — the row written for `(uid, name)`
carries exactly that string; `fmt4` always ends in a dot followed by exactly
four digit characters; and the scenario values theta_0 = 1.5 = 3/2,
theta_1 = 2.3 = 23/10 format to "y = 2.3000x + 1.5000". -/
theorem claim_C7_equation_format (db : Database) (uid : Nat) (name : String)
    (d : ModelData) :
    (∀ r ∈ (db.save_model uid name d).1.models, r.user_id = uid → r.model_name = name →
      r.equation = "y = " ++ fmt4 d.theta_1 ++ "x + " ++ fmt4 d.theta_0) ∧
    (∀ q : Rat, ∃ (pre : String) (c1 c2 c3 c4 : Char),
      fmt4 q = pre ++ String.mk ['.', c1, c2, c3, c4] ∧
      c1.isDigit = true ∧ c2.isDigit = true ∧ c3.isDigit = true ∧ c4.isDigit = true) ∧
    Database.mkEquation ⟨mkRat 3 2, mkRat 23 10, mkRat 1 10, mkRat 1 10, mkRat 9 10,
      none, none, none⟩ = "y = 2.3000x + 1.5000" := by
  refine ⟨?_, ?_, by decide⟩
  · intro r hr huid hname
    rw [save_model_models] at hr
    rcases List.mem_append.mp hr with hF | hnew
    · have hkey := (List.mem_filter.mp hF).2
      simp only [Database.keyMatch, Bool.not_eq_true', Bool.and_eq_false_iff] at hkey
      rcases hkey with h | h <;> simp [huid, hname] at h
    · have : r = ⟨db.nextModelId, uid, name, d.theta_0, d.theta_1, d.rmse, d.mae,
        d.r2_score, d.sklearn_rmse, d.sklearn_mae, d.sklearn_r2,
        Database.mkEquation d, db.tick⟩ := by simpa using hnew
      rw [this]
      rfl
  · intro q
    refine ⟨(if q.num < 0 then "-" else "") ++
        toString (halfRound (q.num.natAbs * 10000) q.den / 10000),
      Nat.digitChar (halfRound (q.num.natAbs * 10000) q.den % 10000 / 1000 % 10),
      Nat.digitChar (halfRound (q.num.natAbs * 10000) q.den % 10000 / 100 % 10),
      Nat.digitChar (halfRound (q.num.natAbs * 10000) q.den % 10000 / 10 % 10),
      Nat.digitChar (halfRound (q.num.natAbs * 10000) q.den % 10000 % 10), ?_,
      digitChar_isDigit (Nat.mod_lt _ (by omega)),
      digitChar_isDigit (Nat.mod_lt _ (by omega)),
      digitChar_isDigit (Nat.mod_lt _ (by omega)),
      digitChar_isDigit (Nat.mod_lt _ (by omega))⟩
    show (if q.num < 0 then "-" else "") ++ toString (halfRound (q.num.natAbs * 10000) q.den / 10000) ++ "." ++
        String.mk (frac4Chars (halfRound (q.num.natAbs * 10000) q.den % 10000)) = _
    rw [String.append_assoc]
    rfl

/-- C7 witness: saving the scenario metrics into the empty database stores a
row for (1, "m1") whose equation is exactly "y = 2.3000x + 1.5000". -/
theorem claim_C7_witness :
    (∀ r ∈ (emptyDb.save_model 1 "m1"
        ⟨mkRat 3 2, mkRat 23 10, mkRat 1 10, mkRat 1 10, mkRat 9 10,
          none, none, none⟩).1.models,
      r.user_id = 1 → r.model_name = "m1" → r.equation = "y = 2.3000x + 1.5000") := by
  intro r hr huid hname
  have main := (claim_C7_equation_format emptyDb 1 "m1"
    ⟨mkRat 3 2, mkRat 23 10, mkRat 1 10, mkRat 1 10, mkRat 9 10,
      none, none, none⟩)
  rw [main.1 r hr huid hname]
  exact main.2.2

/-! ## C10 — the stored hash never reaches a returned user object -/

/-- Rows that agree on every column except `password_hash`. -/
def UserSim (a b : UserRow) : Prop :=
  a.id = b.id ∧ a.username = b.username ∧ a.email = b.email ∧
  a.created_at = b.created_at

/-- Database states that differ only in stored password hashes. -/
def HashIndep (db1 db2 : Database) : Prop :=
  List.Forall₂ UserSim db1.users db2.users ∧
  db1.nextUserId = db2.nextUserId ∧ db1.models = db2.models ∧
  db1.nextModelId = db2.nextModelId ∧ db1.tick = db2.tick

/-- Pointwise `UserSim` on optional results. -/
def OptSim : Option UserRow → Option UserRow → Prop
  | none, none => True
  | some a, some b => UserSim a b
  | _, _ => False

theorem forall2_any_eq {l1 l2 : List UserRow} (h : List.Forall₂ UserSim l1 l2)
    (p1 p2 : UserRow → Bool) (hp : ∀ a b, UserSim a b → p1 a = p2 b) :
    l1.any p1 = l2.any p2 := by
  induction h with
  | nil => rfl
  | cons hab htail ih => simp only [List.any_cons, hp _ _ hab, ih]

theorem forall2_find?_sim {l1 l2 : List UserRow} (h : List.Forall₂ UserSim l1 l2)
    (p1 p2 : UserRow → Bool) (hp : ∀ a b, UserSim a b → p1 a = p2 b) :
    OptSim (l1.find? p1) (l2.find? p2) := by
  induction h with
  | nil => trivial
  | @cons a b t1 t2 hab htail ih =>
    have hpb : p2 b = p1 a := (hp a b hab).symm
    cases hpa : p1 a with
    | true =>
      rw [hpa] at hpb
      simp only [List.find?, hpa, hpb]
      exact hab
    | false =>
      rw [hpa] at hpb
      simp only [List.find?, hpa, hpb]
      exact ih

theorem forall2_sim_append {l1 l2 l1' l2' : List UserRow}
    (h : List.Forall₂ UserSim l1 l2) (h' : List.Forall₂ UserSim l1' l2') :
    List.Forall₂ UserSim (l1 ++ l1') (l2 ++ l2') := by
  induction h with
  | nil => exact h'
  | cons hab ht ih => exact List.Forall₂.cons hab ih

/-- `get_user_by_id` ignores the `password_hash` column. -/
theorem users_sim_get_user_by_id {db1 db2 : Database}
    (hf : List.Forall₂ UserSim db1.users db2.users) (i : Nat) :
    db1.get_user_by_id i = db2.get_user_by_id i := by
  unfold Database.get_user_by_id
  have hs := forall2_find?_sim hf (fun r => r.id == i) (fun r => r.id == i)
    (fun a b hab => by show (a.id == i) = (b.id == i); rw [hab.1])
  cases e1 : db1.users.find? (fun r => r.id == i) with
  | none =>
    cases e2 : db2.users.find? (fun r => r.id == i) with
    | none => rfl
    | some b => rw [e1, e2] at hs; exact hs.elim
  | some a =>
    cases e2 : db2.users.find? (fun r => r.id == i) with
    | none => rw [e1, e2] at hs; exact hs.elim
    | some b =>
      rw [e1, e2] at hs
      obtain ⟨hid, hun, hem, hca⟩ := hs
      simp [hid, hun, hem, hca]

/-- When both states authenticate a user successfully, it is the same id. -/
theorem authenticate_eq_of_sim {db1 db2 : Database}
    (hf : List.Forall₂ UserSim db1.users db2.users) (u p : String) (uid1 uid2 : Nat)
    (h1 : db1.authenticate_user u p = some uid1)
    (h2 : db2.authenticate_user u p = some uid2) : uid1 = uid2 := by
  have hs := forall2_find?_sim hf (fun r => r.username == u) (fun r => r.username == u)
    (fun a b hab => by show (a.username == u) = (b.username == u); rw [hab.2.1])
  cases e1 : db1.users.find? (fun r => r.username == u) with
  | none =>
    have h1' : (none : Option Nat) = some uid1 := by
      have hx := h1
      unfold Database.authenticate_user at hx
      rw [e1] at hx
      exact hx
    cases h1'
  | some a =>
    cases e2 : db2.users.find? (fun r => r.username == u) with
    | none =>
      have h2' : (none : Option Nat) = some uid2 := by
        have hx := h2
        unfold Database.authenticate_user at hx
        rw [e2] at hx
        exact hx
      cases h2'
    | some b =>
      rw [e1, e2] at hs
      have h1' : (if Database.verify_password p a.password_hash = true then some a.id
          else none) = some uid1 := by
        have hx := h1
        unfold Database.authenticate_user at hx
        rw [e1] at hx
        exact hx
      have h2' : (if Database.verify_password p b.password_hash = true then some b.id
          else none) = some uid2 := by
        have hx := h2
        unfold Database.authenticate_user at hx
        rw [e2] at hx
        exact hx
      by_cases hv1 : Database.verify_password p a.password_hash = true
      · by_cases hv2 : Database.verify_password p b.password_hash = true
        · rw [if_pos hv1] at h1'
          rw [if_pos hv2] at h2'
          injection h1' with hh1
          injection h2' with hh2
          rw [← hh1, ← hh2, hs.1]
        · rw [if_neg hv2] at h2'
          cases h2'
      · rw [if_neg hv1] at h1'
        cases h1'

/-- C10 (amended): for two database states that differ only in a user's
`password_hash` column, `get_user_by_id`, `get_current_user` and the whole
signup response are identical, and whenever signin succeeds on both states
the returned payloads (session identifier and user object) are identical.
The signin *outcome* itself is the one observable that may differ, because
`authenticate_user` compares the supplied password's hash with the stored
column. -/
theorem claim_C10_hash_noninterference (ac : AuthController) (db1 db2 : Database)
    (h : HashIndep db1 db2) :
    (∀ i, db1.get_user_by_id i = db2.get_user_by_id i) ∧
    (∀ sid, AuthController.get_current_user ac db1 sid =
      AuthController.get_current_user ac db2 sid) ∧
    (∀ u p e, (ac.signup db1 u p e).1 = (ac.signup db2 u p e).1) ∧
    (∀ u p r1 r2, (ac.signin db1 u p).1 = .ok r1 → (ac.signin db2 u p).1 = .ok r2 →
      r1 = r2) := by
  obtain ⟨hf, hnid, hmod, hnmid, htick⟩ := h
  refine ⟨users_sim_get_user_by_id hf, ?_, ?_, ?_⟩
  · intro sid
    unfold AuthController.get_current_user
    cases ac.get_session sid with
    | none => rfl
    | some s => exact users_sim_get_user_by_id hf s.user_id
  · intro u p e
    have hut : db1.usernameTaken u = db2.usernameTaken u :=
      forall2_any_eq hf _ _
        (fun a b hab => by show (a.username == u) = (b.username == u); rw [hab.2.1])
    have het : db1.emailTaken e = db2.emailTaken e := by
      cases e with
      | none => rfl
      | some x =>
        exact forall2_any_eq hf _ _
          (fun a b hab => by
            show (a.email == some x) = (b.email == some x)
            rw [hab.2.2.1])
    unfold AuthController.signup
    by_cases h3 : u.length < 3
    · simp [h3]
    by_cases h6 : p.length < 6
    · simp [h3, h6]
    rw [if_neg h3, if_neg h6, if_neg h3, if_neg h6]
    by_cases htk : (db1.usernameTaken u || db1.emailTaken e) = true
    · have hcu1 : db1.create_user u p e = (db1, false) := by
        unfold Database.create_user
        rw [htk]
        rfl
      have hcu2 : db2.create_user u p e = (db2, false) := by
        unfold Database.create_user
        rw [← hut, ← het, htk]
        rfl
      simp [hcu1, hcu2]
    · have hor : (db1.usernameTaken u || db1.emailTaken e) = false := by
        simpa using htk
      obtain ⟨hu1, he1⟩ := Bool.or_eq_false_iff.mp hor
      have hcu1 : db1.create_user u p e =
          ({ db1 with
              users := db1.users ++
                [⟨db1.nextUserId, u, Database.hash_password p, e, db1.tick⟩],
              nextUserId := db1.nextUserId + 1, tick := db1.tick + 1 }, true) := by
        unfold Database.create_user
        rw [hu1, he1]
        rfl
      have hcu2 : db2.create_user u p e =
          ({ db2 with
              users := db2.users ++
                [⟨db2.nextUserId, u, Database.hash_password p, e, db2.tick⟩],
              nextUserId := db2.nextUserId + 1, tick := db2.tick + 1 }, true) := by
        unfold Database.create_user
        rw [← hut, ← het, hu1, he1]
        rfl
      have hext : List.Forall₂ UserSim
          (db1.users ++ [⟨db1.nextUserId, u, Database.hash_password p, e, db1.tick⟩])
          (db2.users ++ [⟨db2.nextUserId, u, Database.hash_password p, e, db2.tick⟩]) :=
        forall2_sim_append hf
          (List.Forall₂.cons ⟨hnid, rfl, rfl, htick⟩ List.Forall₂.nil)
      have hauth1 : ({ db1 with
          users := db1.users ++
            [⟨db1.nextUserId, u, Database.hash_password p, e, db1.tick⟩],
          nextUserId := db1.nextUserId + 1, tick := db1.tick + 1 } :
            Database).authenticate_user u p = some db1.nextUserId := by
        unfold Database.authenticate_user
        rw [show ({ db1 with
            users := db1.users ++
              [⟨db1.nextUserId, u, Database.hash_password p, e, db1.tick⟩],
            nextUserId := db1.nextUserId + 1, tick := db1.tick + 1 } :
              Database).users = db1.users ++
              [⟨db1.nextUserId, u, Database.hash_password p, e, db1.tick⟩] from rfl]
        rw [find?_append_of_none _ (find?_eq_none_of_any_false hu1)]
        simp [List.find?, Database.verify_password]
      have hauth2 : ({ db2 with
          users := db2.users ++
            [⟨db2.nextUserId, u, Database.hash_password p, e, db2.tick⟩],
          nextUserId := db2.nextUserId + 1, tick := db2.tick + 1 } :
            Database).authenticate_user u p = some db1.nextUserId := by
        unfold Database.authenticate_user
        rw [show ({ db2 with
            users := db2.users ++
              [⟨db2.nextUserId, u, Database.hash_password p, e, db2.tick⟩],
            nextUserId := db2.nextUserId + 1, tick := db2.tick + 1 } :
              Database).users = db2.users ++
              [⟨db2.nextUserId, u, Database.hash_password p, e, db2.tick⟩] from rfl]
        have hu2 : db2.usernameTaken u = false := by rw [← hut]; exact hu1
        rw [find?_append_of_none _ (find?_eq_none_of_any_false hu2)]
        simp [List.find?, Database.verify_password, hnid]
      have hext2 : List.Forall₂ UserSim
          (({ db1 with
              users := db1.users ++
                [⟨db1.nextUserId, u, Database.hash_password p, e, db1.tick⟩],
              nextUserId := db1.nextUserId + 1, tick := db1.tick + 1 } :
                Database).users)
          (({ db2 with
              users := db2.users ++
                [⟨db2.nextUserId, u, Database.hash_password p, e, db2.tick⟩],
              nextUserId := db2.nextUserId + 1, tick := db2.tick + 1 } :
                Database).users) := hext
      have hget := users_sim_get_user_by_id hext2 db1.nextUserId
      simp only [hcu1, hcu2, hauth1, hauth2, hget]
      cases ({ db2 with
          users := db2.users ++
            [⟨db2.nextUserId, u, Database.hash_password p, e, db2.tick⟩],
          nextUserId := db2.nextUserId + 1, tick := db2.tick + 1 } :
            Database).get_user_by_id db1.nextUserId <;> rfl
  · intro u p r1 r2 h1 h2
    cases e1 : db1.authenticate_user u p with
    | none =>
      have h1' : (ApiResult.httpError 401 "Invalid username or password" :
          ApiResult SigninOk) = .ok r1 := by
        have hx := h1
        unfold AuthController.signin at hx
        rw [e1] at hx
        exact hx
      cases h1'
    | some uid1 =>
      cases e2 : db2.authenticate_user u p with
      | none =>
        have h2' : (ApiResult.httpError 401 "Invalid username or password" :
            ApiResult SigninOk) = .ok r2 := by
          have hx := h2
          unfold AuthController.signin at hx
          rw [e2] at hx
          exact hx
        cases h2'
      | some uid2 =>
        have huid : uid1 = uid2 := authenticate_eq_of_sim hf u p uid1 uid2 e1 e2
        have h1' : (match db1.get_user_by_id uid1 with
            | none => ((ApiResult.crash : ApiResult SigninOk), ac)
            | some info =>
              (ApiResult.ok ⟨"Sign in successful", ac.uuidCounter,
                ⟨info.id, info.username, info.email⟩⟩,
                (ac.create_session uid1 info.username).2)).1 = .ok r1 := by
          have hx := h1
          unfold AuthController.signin at hx
          rw [e1] at hx
          exact hx
        have h2' : (match db2.get_user_by_id uid2 with
            | none => ((ApiResult.crash : ApiResult SigninOk), ac)
            | some info =>
              (ApiResult.ok ⟨"Sign in successful", ac.uuidCounter,
                ⟨info.id, info.username, info.email⟩⟩,
                (ac.create_session uid2 info.username).2)).1 = .ok r2 := by
          have hx := h2
          unfold AuthController.signin at hx
          rw [e2] at hx
          exact hx
        have hg : db1.get_user_by_id uid1 = db2.get_user_by_id uid2 := by
          rw [huid]
          exact users_sim_get_user_by_id hf uid2
        rw [hg] at h1'
        cases hgi : db2.get_user_by_id uid2 with
        | none =>
          rw [hgi] at h1'
          exact absurd h1' (by simp)
        | some info =>
          rw [hgi] at h1'
          rw [hgi] at h2'
          simp only [ApiResult.ok.injEq] at h1' h2'
          rw [← h1', ← h2']

/-- A copy of `signinDb` whose only difference is the stored hash. -/
def corruptDb : Database :=
  { users := [⟨1, "alice", "corrupted", some "a@x.com", 0⟩],
    nextUserId := 2, models := [], nextModelId := 1, tick := 1 }

set_option maxRecDepth 100000 in
/-- C10 counterexample to the claim as stated: the two states differ only in
the stored password hash, yet the signin responses differ — success against
the real hash, 401 against the corrupted one — so "the signin response
returns identical results" fails. -/
theorem claim_C10_counterexample :
    HashIndep signinDb corruptDb ∧
    (sampleAc.signin signinDb "alice" "secret1").1 ≠
      (sampleAc.signin corruptDb "alice" "secret1").1 := by
  constructor
  · exact ⟨List.Forall₂.cons ⟨rfl, rfl, rfl, rfl⟩ List.Forall₂.nil, rfl, rfl, rfl, rfl⟩
  · decide

/-- C10 witness: the amended theorem applied to the fixture pair. -/
theorem claim_C10_witness :
    HashIndep signinDb corruptDb ∧
    ((∀ i, signinDb.get_user_by_id i = corruptDb.get_user_by_id i) ∧
      (∀ sid, AuthController.get_current_user sampleAc signinDb sid =
        AuthController.get_current_user sampleAc corruptDb sid) ∧
      (∀ u p e, (sampleAc.signup signinDb u p e).1 =
        (sampleAc.signup corruptDb u p e).1) ∧
      (∀ u p r1 r2, (sampleAc.signin signinDb u p).1 = .ok r1 →
        (sampleAc.signin corruptDb u p).1 = .ok r2 → r1 = r2)) :=
  have hind : HashIndep signinDb corruptDb :=
    ⟨List.Forall₂.cons ⟨rfl, rfl, rfl, rfl⟩ List.Forall₂.nil, rfl, rfl, rfl, rfl⟩
  ⟨hind, claim_C10_hash_noninterference sampleAc signinDb corruptDb hind⟩
